import Mathlib

/-!
Formal model of `src/src/venv_manager.py`, a small desktop utility that
creates a Python virtual environment, drives pip-tools, and runs
user-entered shell commands, reporting through a scrolled text widget.

The embedding is a shallow one:

* The host platform (`platform.system()`, `platform.release()`,
  `platform.version()`, `sys.executable`) is a `Host` record; `os.path.join`
  on simple relative components is string concatenation with the host's
  separator, and `os.pathsep` is the host's path-list separator.
* A child process (`subprocess.run`) is an uninterpreted oracle
  `SpawnReq → SpawnOutcome`: the request records the argument vector or
  shell string, whether output is captured, and the environment passed to
  the child; the outcome is either a completed process (stdout, stderr,
  returncode) or a raised exception (Python's `subprocess.run` raises, e.g.
  `FileNotFoundError`, when the executable of an argument-vector invocation
  does not exist; the source contains no try/except).
* The observable state is a `World`: the terminal widget (`Terminal`), the
  ordered trace of externally visible effects (`Effect`), and the host
  process environment `os.environ` (`Environ`).
* Every function returns a `PyOut α`: either a normal value with the
  resulting world, or a propagating exception with the world at the moment
  of the raise.
-/

/-- SETTINGS constant `PYTHON_VERSION` from the source. -/
def PYTHON_VERSION : String := "3.11"

/-- SETTINGS constant `PIP_TOOLS_VERSION` from the source. -/
def PIP_TOOLS_VERSION : String := "7.4.1"

/-- SETTINGS constant `REQUIREMENTS_FILE` from the source. -/
def REQUIREMENTS_FILE : String := "requirements.in"

/-- SETTINGS constant `VENV_NAME` from the source: the Environment Location. -/
def VENV_NAME : String := "venv_running"

/-- Host platform facts the program consults: `platform.system()`,
`platform.release()`, `platform.version()` and `sys.executable`. -/
structure Host where
  system : String
  release : String
  version : String
  pyexe : String
deriving Repr, DecidableEq

/-- Path-component separator used by `os.path.join` on this host. -/
def Host.sep (h : Host) : String := if h.system = "Windows" then "\\" else "/"

/-- Path-list separator `os.pathsep` on this host. -/
def Host.pathsep (h : Host) : String := if h.system = "Windows" then ";" else ":"

/-- Lean rendering of `os.path.join(a, b)` for simple relative components. -/
def osJoin (h : Host) (a b : String) : String := a ++ h.sep ++ b

/-- Lean rendering of `os.path.join(a, b, c)` for simple relative components. -/
def osJoin3 (h : Host) (a b c : String) : String := osJoin h (osJoin h a b) c

/-- Platform binary subdirectory as the specification words it: `Scripts`
when the host platform is Windows and `bin` otherwise. -/
def specBinDir (h : Host) : String := if h.system = "Windows" then "Scripts" else "bin"

/-- Process environment dictionary (`os.environ` and copies of it), as an
association list of variable bindings. -/
structure Environ where
  vars : List (String × String)
deriving Repr, DecidableEq

/-- Dictionary lookup `e[k]`, `None` when the key is absent. -/
def Environ.get? (e : Environ) (k : String) : Option String :=
  (e.vars.find? (fun p => p.1 == k)).map (fun p => p.2)

/-- Dictionary update on the underlying binding list: replace the first
binding of the key, or append a new binding when the key is absent. -/
def Environ.setList : List (String × String) → String → String → List (String × String)
  | [], k, v => [(k, v)]
  | p :: rest, k, v => if p.1 == k then (p.1, v) :: rest else p :: Environ.setList rest k v

/-- Dictionary update `e[k] = v`. -/
def Environ.set (e : Environ) (k v : String) : Environ := ⟨Environ.setList e.vars k v⟩

/-- Command given to `subprocess.run`: an argument vector, or a raw shell
string (the `shell=True` form). -/
inductive Cmd where
  | argv (args : List String)
  | shell (line : String)
deriving Repr, DecidableEq

/-- One `subprocess.run` request: the command, whether `capture_output=True`
was passed, and the environment passed via `env=` (`none` means the child
inherits the host environment). -/
structure SpawnReq where
  cmd : Cmd
  captureOutput : Bool
  env : Option Environ
deriving Repr, DecidableEq

/-- Completed-process record: captured stdout, captured stderr, exit code. -/
structure ProcResult where
  stdout : String
  stderr : String
  returncode : Int
deriving Repr, DecidableEq

/-- Outcome of a `subprocess.run` call: the child completed (with whatever
exit code), or the call itself raised an exception — as it does, e.g. with
`FileNotFoundError`, when the executable of an argument-vector invocation
does not exist. -/
inductive SpawnOutcome where
  | completed (r : ProcResult)
  | raises (e : String)
deriving Repr, DecidableEq

/-- Externally visible effects of the program: a child process spawned, a
modal message box shown (`messagebox.showinfo`), a notebook tab selected. -/
inductive Effect where
  | spawned (req : SpawnReq)
  | msgBox (title body : String)
  | tabSelected (tab : String)
deriving Repr, DecidableEq

/-- The scrolled text widget `terminal_output`: its text content and whether
the view is scrolled to the end. -/
structure Terminal where
  buffer : String
  scrollAtEnd : Bool
deriving Repr, DecidableEq

/-- Observable program state: the terminal widget, the ordered effect trace,
and the host process environment `os.environ`. -/
structure World where
  term : Terminal
  events : List Effect
  hostEnv : Environ
deriving Repr, DecidableEq

/-- Result of running a piece of the program: a normal return with the
resulting world, or a propagating Python exception with the world at the
moment of the raise. -/
inductive PyOut (α : Type) where
  | ok (w : World) (v : α)
  | exn (w : World) (e : String)
deriving Repr, DecidableEq

/-- World reached by a computation, whether it returned or raised. -/
def PyOut.world {α : Type} : PyOut α → World
  | .ok w _ => w
  | .exn w _ => w

/-- Oracle describing how the operating system answers `subprocess.run`. -/
def Oracle : Type := SpawnReq → SpawnOutcome

/-- Oracle under which every child process completes with result `r`. -/
def constOracle (r : ProcResult) : Oracle := fun _ => SpawnOutcome.completed r

/-- Oracle under which every `subprocess.run` call raises `e` — the
behaviour seen when the requested executable is missing. -/
def raisesOracle (e : String) : Oracle := fun _ => SpawnOutcome.raises e

/-- Lean rendering of `subprocess.run`: record the spawn in the effect
trace and return the oracle's completed-process record, or propagate the
oracle's exception. -/
def runProc (oracle : Oracle) (req : SpawnReq) (w : World) : PyOut ProcResult :=
  match oracle req with
  | .completed r => .ok { w with events := w.events ++ [Effect.spawned req] } r
  | .raises e => .exn w e

/-- Line separator appended by the log sink. -/
def lineSep : String := "\n"

/-- Widget primitive `terminal_output.insert(tk.END, text)`. -/
def Terminal.insertEnd (t : Terminal) (text : String) : Terminal :=
  { t with buffer := t.buffer ++ text }

/-- Widget primitive `terminal_output.see(tk.END)`. -/
def Terminal.seeEnd (t : Terminal) : Terminal :=
  { t with scrollAtEnd := true }

/-- Source function `log_to_terminal`: insert `text + "\n"` at the end of
the widget and scroll the view to the end. -/
def log_to_terminal (text : String) (w : World) : World :=
  { w with term := (w.term.insertEnd (text ++ lineSep)).seeEnd }

/-- Source function `get_os_info`. -/
def get_os_info (h : Host) : String × String × String := (h.system, h.release, h.version)

/-- Whitespace characters stripped by Python's `str.strip()` (ASCII range). -/
def isPySpace (c : Char) : Bool :=
  c = ' ' || c = '\t' || c = '\n' || c = '\x0d' || c = '\x0b' || c = '\x0c'

/-- Lean rendering of Python's `cmd.strip()`. -/
def pyStrip (s : String) : String :=
  String.mk (((s.data.dropWhile isPySpace).reverse.dropWhile isPySpace).reverse)

/-- Source function `install_os_dependencies`: log the detected OS, then run
the platform's package-manager commands (none are captured). -/
def install_os_dependencies (h : Host) (oracle : Oracle) (w : World) : PyOut Unit :=
  let (os_name, release, version) := get_os_info h
  let w := log_to_terminal ("Detected OS: " ++ os_name ++ " " ++ release ++ " " ++ version) w
  if os_name = "Linux" then
    match runProc oracle ⟨Cmd.argv ["sudo", "apt-get", "update"], false, none⟩ w with
    | .exn w e => .exn w e
    | .ok w _ =>
      match runProc oracle
          ⟨Cmd.argv ["sudo", "apt-get", "install", "-y", "python" ++ PYTHON_VERSION,
            "python3-venv"], false, none⟩ w with
      | .exn w e => .exn w e
      | .ok w _ => .ok w ()
  else if os_name = "Darwin" then
    match runProc oracle ⟨Cmd.argv ["brew", "install", "python@" ++ PYTHON_VERSION],
        false, none⟩ w with
    | .exn w e => .exn w e
    | .ok w _ => .ok w ()
  else if os_name = "Windows" then
    .ok (log_to_terminal ("Ensure Python is installed manually on Windows.") w) ()
  else
    .ok (log_to_terminal ("Unsupported OS.") w) ()

/-- Source function `create_venv`: run `python -m venv VENV_NAME` and return
the path of the activate script inside the environment. -/
def create_venv (h : Host) (oracle : Oracle) (w : World) : PyOut String :=
  match runProc oracle ⟨Cmd.argv [h.pyexe, "-m", "venv", VENV_NAME], false, none⟩ w with
  | .exn w e => .exn w e
  | .ok w _ =>
    let activate_script :=
      osJoin3 h VENV_NAME (if h.system = "Windows" then "Scripts" else "bin") "activate"
    .ok w activate_script

/-- Source function `install_pip_tools`: run `<venv pip> install
pip-tools==PIP_TOOLS_VERSION` without capturing output. -/
def install_pip_tools (h : Host) (oracle : Oracle) (w : World) : PyOut Unit :=
  let pip_path := osJoin3 h VENV_NAME (if h.system ≠ "Windows" then "bin" else "Scripts") "pip"
  match runProc oracle ⟨Cmd.argv [pip_path, "install", "pip-tools==" ++ PIP_TOOLS_VERSION],
      false, none⟩ w with
  | .exn w e => .exn w e
  | .ok w _ => .ok w ()

/-- Source function `compile_requirements`: run `<venv pip-compile>
requirements.in` with output captured, log stdout, then log stderr when it
is nonempty (Python string truthiness). -/
def compile_requirements (h : Host) (oracle : Oracle) (w : World) : PyOut Unit :=
  let pip_compile_path :=
    osJoin3 h VENV_NAME (if h.system ≠ "Windows" then "bin" else "Scripts") "pip-compile"
  match runProc oracle ⟨Cmd.argv [pip_compile_path, REQUIREMENTS_FILE], true, none⟩ w with
  | .exn w e => .exn w e
  | .ok w result =>
    let w := log_to_terminal result.stdout w
    if result.stderr ≠ "" then .ok (log_to_terminal result.stderr w) () else .ok w ()

/-- Source function `sync_requirements`: run `<venv pip-sync>` with output
captured, log stdout, then log stderr when it is nonempty. -/
def sync_requirements (h : Host) (oracle : Oracle) (w : World) : PyOut Unit :=
  let pip_sync_path :=
    osJoin3 h VENV_NAME (if h.system ≠ "Windows" then "bin" else "Scripts") "pip-sync"
  match runProc oracle ⟨Cmd.argv [pip_sync_path], true, none⟩ w with
  | .exn w e => .exn w e
  | .ok w result =>
    let w := log_to_terminal result.stdout w
    if result.stderr ≠ "" then .ok (log_to_terminal result.stderr w) () else .ok w ()

/-- Source function `get_installed_packages`: run `<venv pip> list` with
output captured and return its stdout. -/
def get_installed_packages (h : Host) (oracle : Oracle) (w : World) : PyOut String :=
  let pip_path := osJoin3 h VENV_NAME (if h.system ≠ "Windows" then "bin" else "Scripts") "pip"
  match runProc oracle ⟨Cmd.argv [pip_path, "list"], true, none⟩ w with
  | .exn w e => .exn w e
  | .ok w result => .ok w result.stdout

/-- Source action `on_create_venv`: log, install OS dependencies, create the
environment, log the activate path, install pip-tools, and switch to the
Terminal tab. -/
def on_create_venv (h : Host) (oracle : Oracle) (w : World) : PyOut Unit :=
  let w := log_to_terminal ("Checking OS dependencies...") w
  match install_os_dependencies h oracle w with
  | .exn w e => .exn w e
  | .ok w _ =>
    let w := log_to_terminal ("Creating virtual environment...") w
    match create_venv h oracle w with
    | .exn w e => .exn w e
    | .ok w activate_script =>
      let w := log_to_terminal ("Virtual environment created at " ++ activate_script) w
      let w := log_to_terminal ("Installing pip-tools...") w
      match install_pip_tools h oracle w with
      | .exn w e => .exn w e
      | .ok w _ =>
        let w := log_to_terminal ("pip-tools installed.") w
        .ok { w with events := w.events ++ [Effect.tabSelected ("Terminal")] } ()

/-- Source action `on_status`: list the installed packages and show them in
a modal message box (`messagebox.showinfo`). -/
def on_status (h : Host) (oracle : Oracle) (w : World) : PyOut Unit :=
  match get_installed_packages h oracle w with
  | .exn w e => .exn w e
  | .ok w packages =>
    .ok { w with events := w.events ++ [Effect.msgBox ("Installed Packages") packages] } ()

/-- Source action `on_compile`. -/
def on_compile (h : Host) (oracle : Oracle) (w : World) : PyOut Unit :=
  let w := log_to_terminal ("Running pip-compile...") w
  compile_requirements h oracle w

/-- Source action `on_sync`. -/
def on_sync (h : Host) (oracle : Oracle) (w : World) : PyOut Unit :=
  let w := log_to_terminal ("Running pip-sync...") w
  sync_requirements h oracle w

/-- Source action `run_shell_command` on the entered text `cmd`: reject a
blank command with a log line; otherwise log it, build a copy of the host
environment with the venv binary directory prepended to `PATH`, run the text
as a shell command with output captured, and log nonempty stdout and stderr.
Reading `env["PATH"]` raises `KeyError` when the host environment has no
`PATH` binding. -/
def run_shell_command (h : Host) (oracle : Oracle) (cmd : String) (w : World) : PyOut Unit :=
  if pyStrip cmd = "" then
    .ok (log_to_terminal ("No command entered.") w) ()
  else
    let w := log_to_terminal ("Executing in venv: " ++ cmd) w
    let env := w.hostEnv
    let venv_bin := osJoin h VENV_NAME (if h.system = "Windows" then "Scripts" else "bin")
    match env.get? ("PATH") with
    | none => .exn w ("KeyError: PATH")
    | some oldPath =>
      let env := env.set ("PATH") (venv_bin ++ h.pathsep ++ oldPath)
      match runProc oracle ⟨Cmd.shell cmd, true, some env⟩ w with
      | .exn w e => .exn w e
      | .ok w result =>
        let w := if result.stdout ≠ "" then log_to_terminal result.stdout w else w
        if result.stderr ≠ "" then .ok (log_to_terminal result.stderr w) () else .ok w ()

/-- World with one spawn recorded at the end of the effect trace. -/
def afterSpawn (w : World) (req : SpawnReq) : World :=
  { w with events := w.events ++ [Effect.spawned req] }

/-- Log `s` exactly when it is nonempty (Python string truthiness). -/
def logIfNonempty (s : String) (w : World) : World :=
  if s ≠ "" then log_to_terminal s w else w

/-- Spawn request issued by `create_venv`. -/
def venvCreateReq (h : Host) : SpawnReq :=
  ⟨Cmd.argv [h.pyexe, "-m", "venv", VENV_NAME], false, none⟩

/-- Spawn request issued by `install_pip_tools`, with the executable path
written through the specification's binary-subdirectory choice. -/
def pipInstallReq (h : Host) : SpawnReq :=
  ⟨Cmd.argv [osJoin3 h VENV_NAME (specBinDir h) "pip", "install",
    "pip-tools==" ++ PIP_TOOLS_VERSION], false, none⟩

/-- Spawn request issued by `compile_requirements`. -/
def compileReq (h : Host) : SpawnReq :=
  ⟨Cmd.argv [osJoin3 h VENV_NAME (specBinDir h) "pip-compile", REQUIREMENTS_FILE], true, none⟩

/-- Spawn request issued by `sync_requirements`. -/
def syncReq (h : Host) : SpawnReq :=
  ⟨Cmd.argv [osJoin3 h VENV_NAME (specBinDir h) "pip-sync"], true, none⟩

/-- Spawn request issued by `get_installed_packages`. -/
def pipListReq (h : Host) : SpawnReq :=
  ⟨Cmd.argv [osJoin3 h VENV_NAME (specBinDir h) "pip", "list"], true, none⟩

/-- Spawn request issued by `run_shell_command` for a non-blank command:
the shell string, captured output, and the copied environment whose `PATH`
is the venv binary directory, the path-list separator, then the old value. -/
def shellReq (h : Host) (w : World) (cmd p : String) : SpawnReq :=
  ⟨Cmd.shell cmd, true,
    some (w.hostEnv.set ("PATH") (osJoin h VENV_NAME (specBinDir h) ++ h.pathsep ++ p))⟩

/-- Occurrence of `pat` inside `buf` starting at character position `i`. -/
def occursFrom (buf pat : String) (i : Nat) : Prop :=
  ∃ a b : List Char, buf.data = a ++ pat.data ++ b ∧ a.length = i

/-- The buffer contains `out` and `err`, each followed by the line
separator, with the stdout occurrence no later than the stderr one. -/
def logsInOrder (buf out err : String) : Prop :=
  ∃ i j, i ≤ j ∧ occursFrom buf (out ++ lineSep) i ∧ occursFrom buf (err ++ lineSep) j

/-- Test for the message-box effect. -/
def Effect.isMsgBox : Effect → Bool
  | .msgBox _ _ => true
  | _ => false

/-- Message-box effects of a trace, in order. -/
def msgBoxes (es : List Effect) : List Effect := es.filter Effect.isMsgBox

/-- Concrete Linux host used by the closed witnesses. -/
def linuxHost : Host := ⟨"Linux", "6.1.0", "#1 SMP", "/usr/bin/python3"⟩

/-- Concrete Windows host used by the closed witnesses. -/
def winHost : Host := ⟨"Windows", "10", "10.0.19045", "C:/Python311/python.exe"⟩

/-- Concrete starting world used by the closed witnesses: empty terminal,
empty effect trace, a host environment with one `PATH` binding. -/
def w0 : World := ⟨⟨"", false⟩, [], ⟨[("PATH", "/usr/bin:/bin")]⟩⟩

/-- Concrete completed-process record used by the closed witnesses. -/
def r0 : ProcResult := ⟨"out", "err", 0⟩

/-- Concrete oracle used by the closed witnesses. -/
def oracle0 : Oracle := constOracle r0

/-- Run shape of `compile_requirements` when the child completes. -/
lemma compile_run (h : Host) (w : World) (r : ProcResult) :
    compile_requirements h (constOracle r) w =
      .ok (logIfNonempty r.stderr (log_to_terminal r.stdout (afterSpawn w (compileReq h)))) () := by
  by_cases hs : r.stderr = "" <;>
    simp [compile_requirements, runProc, constOracle, logIfNonempty, afterSpawn, compileReq,
      specBinDir, hs]

/-- Run shape of `sync_requirements` when the child completes. -/
lemma sync_run (h : Host) (w : World) (r : ProcResult) :
    sync_requirements h (constOracle r) w =
      .ok (logIfNonempty r.stderr (log_to_terminal r.stdout (afterSpawn w (syncReq h)))) () := by
  by_cases hs : r.stderr = "" <;>
    simp [sync_requirements, runProc, constOracle, logIfNonempty, afterSpawn, syncReq,
      specBinDir, hs]

/-- Run shape of `install_pip_tools` when the child completes. -/
lemma install_pip_tools_run (h : Host) (w : World) (r : ProcResult) :
    install_pip_tools h (constOracle r) w = .ok (afterSpawn w (pipInstallReq h)) () := by
  simp [install_pip_tools, runProc, constOracle, afterSpawn, pipInstallReq, specBinDir]

/-- Run shape of `get_installed_packages` when the child completes. -/
lemma get_installed_packages_run (h : Host) (w : World) (r : ProcResult) :
    get_installed_packages h (constOracle r) w =
      .ok (afterSpawn w (pipListReq h)) r.stdout := by
  simp [get_installed_packages, runProc, constOracle, afterSpawn, pipListReq, specBinDir]

/-- Run shape of `create_venv` when the child completes. -/
lemma create_venv_run (h : Host) (w : World) (r : ProcResult) :
    create_venv h (constOracle r) w =
      .ok (afterSpawn w (venvCreateReq h)) (osJoin3 h VENV_NAME (specBinDir h) "activate") := by
  simp [create_venv, runProc, constOracle, afterSpawn, venvCreateReq, specBinDir]

/-- Run shape of `run_shell_command` on a non-blank command when `PATH` is
bound and the child completes. -/
lemma shell_run (h : Host) (w : World) (r : ProcResult) (cmd p : String)
    (hc : pyStrip cmd ≠ "") (hp : w.hostEnv.get? ("PATH") = some p) :
    run_shell_command h (constOracle r) cmd w =
      .ok (logIfNonempty r.stderr (logIfNonempty r.stdout
        (afterSpawn (log_to_terminal ("Executing in venv: " ++ cmd) w) (shellReq h w cmd p)))) () := by
  have henv : (log_to_terminal ("Executing in venv: " ++ cmd) w).hostEnv = w.hostEnv := rfl
  by_cases h1 : r.stdout = "" <;> by_cases h2 : r.stderr = "" <;>
    simp [run_shell_command, hc, runProc, constOracle, logIfNonempty, afterSpawn, shellReq,
      henv, hp, h1, h2, specBinDir]

/-- Containment witness for a buffer of shape `B · stdout-chunk · optional
stderr-chunk`: the two captured strings occur in order, each followed by the
line separator. -/
lemma logsInOrder_chunk (B : List Char) (out err : String) (buf : String)
    (hbuf : buf.data = B ++ (out.data ++ lineSep.data) ++
      (if err = "" then [] else err.data ++ lineSep.data)) :
    logsInOrder buf out err := by
  by_cases he : err = ""
  · refine ⟨B.length, B.length + out.data.length, by omega,
      ⟨B, [], ?_, rfl⟩, ⟨B ++ out.data, [], ?_, by simp⟩⟩
    · simp [hbuf, he, String.data_append]
    · simp [hbuf, he, String.data_append]
  · refine ⟨B.length, B.length + out.data.length + lineSep.data.length, by omega,
      ⟨B, err.data ++ lineSep.data, ?_, rfl⟩,
      ⟨B ++ out.data ++ lineSep.data, [], ?_, by simp [Nat.add_assoc]⟩⟩
    · simp [hbuf, he, String.data_append]
    · simp [hbuf, he, String.data_append]

/-- Containment witness for a buffer that already ends with a separator and
is then extended by the two optional chunks. -/
lemma logsInOrder_sepEnd (C0 : List Char) (out err : String) (buf : String)
    (hbuf : buf.data = (C0 ++ lineSep.data) ++
      (if out = "" then [] else out.data ++ lineSep.data) ++
      (if err = "" then [] else err.data ++ lineSep.data)) :
    logsInOrder buf out err := by
  by_cases ho : out = ""
  · by_cases he : err = ""
    · exact ⟨C0.length, C0.length, le_refl _,
        ⟨C0, [], by simp [hbuf, ho, he, String.data_append], rfl⟩,
        ⟨C0, [], by simp [hbuf, ho, he, String.data_append], rfl⟩⟩
    · refine ⟨C0.length, C0.length + lineSep.data.length, by omega,
        ⟨C0, err.data ++ lineSep.data, ?_, rfl⟩,
        ⟨C0 ++ lineSep.data, [], ?_, by simp⟩⟩
      · simp [hbuf, ho, he, String.data_append]
      · simp [hbuf, ho, he, String.data_append]
  · apply logsInOrder_chunk (C0 ++ lineSep.data) out err buf
    simpa [ho] using hbuf

/-- Character data of the buffer after an optional log append. -/
lemma logIfNonempty_buffer_data (s : String) (w : World) :
    (logIfNonempty s w).term.buffer.data =
      w.term.buffer.data ++ (if s = "" then [] else s.data ++ lineSep.data) := by
  by_cases hs : s = "" <;>
    simp [logIfNonempty, hs, log_to_terminal, Terminal.insertEnd, Terminal.seeEnd,
      String.data_append]

/-- Character data of the buffer after an unconditional log append. -/
lemma log_buffer_data (s : String) (w : World) :
    (log_to_terminal s w).term.buffer.data = w.term.buffer.data ++ s.data ++ lineSep.data := by
  simp [log_to_terminal, Terminal.insertEnd, Terminal.seeEnd, String.data_append]

/-- Recording a spawn does not touch the terminal. -/
lemma afterSpawn_term (w : World) (req : SpawnReq) : (afterSpawn w req).term = w.term := rfl

/-- Updating a binding list makes the key map to the new value. -/
lemma Environ.setList_find (l : List (String × String)) (k v : String) :
    ((Environ.setList l k v).find? (fun p => p.1 == k)).map (fun p => p.2) = some v := by
  induction l with
  | nil => simp [Environ.setList]
  | cons p rest ih =>
    by_cases hk : p.1 = k
    · simp [Environ.setList, hk]
    · simp [Environ.setList, hk, ih]

/-- Updating a binding list leaves other keys unchanged. -/
lemma Environ.setList_find_ne (l : List (String × String)) (k k' v : String) (h : k' ≠ k) :
    ((Environ.setList l k v).find? (fun p => p.1 == k')).map (fun p => p.2) =
      (l.find? (fun p => p.1 == k')).map (fun p => p.2) := by
  induction l with
  | nil => simp [Environ.setList, Ne.symm h]
  | cons p rest ih =>
    by_cases hk : p.1 = k
    · simp [Environ.setList, hk, h, Ne.symm h]
    · by_cases hk' : p.1 = k' <;> simp [Environ.setList, hk, hk', h, Ne.symm h, ih]

/-- Dictionary update then lookup of the same key. -/
lemma Environ.get?_set_self (e : Environ) (k v : String) : (e.set k v).get? k = some v := by
  simp [Environ.get?, Environ.set, Environ.setList_find]

/-- Dictionary update then lookup of a different key. -/
lemma Environ.get?_set_ne (e : Environ) (k k' v : String) (h : k' ≠ k) :
    (e.set k v).get? k' = e.get? k' := by
  simp [Environ.get?, Environ.set, Environ.setList_find_ne _ _ _ _ h]

/-- Python's `strip()` of a string of whitespace characters is empty. -/
lemma pyStrip_all_space (cmd : String) (hc : ∀ c ∈ cmd.data, isPySpace c) : pyStrip cmd = "" := by
  have h1 : cmd.data.dropWhile isPySpace = [] := by
    rw [List.dropWhile_eq_nil_iff]
    exact fun x hx => hc x hx
  simp [pyStrip, h1]

/-- Appending a spawn effect adds no message box. -/
lemma msgBoxes_append_spawned (es : List Effect) (req : SpawnReq) :
    msgBoxes (es ++ [Effect.spawned req]) = msgBoxes es := by
  simp [msgBoxes, List.filter_append, Effect.isMsgBox]

/-- Appending a tab-selection effect adds no message box. -/
lemma msgBoxes_append_tab (es : List Effect) (t : String) :
    msgBoxes (es ++ [Effect.tabSelected t]) = msgBoxes es := by
  simp [msgBoxes, List.filter_append, Effect.isMsgBox]

/-- A `subprocess.run` call shows no message box. -/
lemma msgBoxes_runProc (o : Oracle) (req : SpawnReq) (w : World) :
    msgBoxes ((runProc o req w).world).events = msgBoxes w.events := by
  unfold runProc
  cases ho : o req <;> simp [ho, PyOut.world, msgBoxes_append_spawned]

/-- Logging touches only the terminal. -/
lemma events_log (s : String) (w : World) : (log_to_terminal s w).events = w.events := rfl

/-- The OS-dependency installer shows no message box. -/
lemma msgBoxes_install_os (h : Host) (o : Oracle) (w : World) :
    msgBoxes ((install_os_dependencies h o w).world).events = msgBoxes w.events := by
  unfold install_os_dependencies get_os_info runProc
  repeat' split
  all_goals
    simp_all [PyOut.world, msgBoxes, List.filter_append, Effect.isMsgBox, log_to_terminal]

/-- Environment creation shows no message box. -/
lemma msgBoxes_create_venv (h : Host) (o : Oracle) (w : World) :
    msgBoxes ((create_venv h o w).world).events = msgBoxes w.events := by
  unfold create_venv runProc
  cases ho : o ⟨Cmd.argv [h.pyexe, "-m", "venv", VENV_NAME], false, none⟩ <;>
    simp [ho, PyOut.world, msgBoxes, List.filter_append, Effect.isMsgBox]

/-- The pip-tools installer shows no message box. -/
lemma msgBoxes_install_pip_tools (h : Host) (o : Oracle) (w : World) :
    msgBoxes ((install_pip_tools h o w).world).events = msgBoxes w.events := by
  simp only [install_pip_tools, runProc]
  cases ho : o ⟨Cmd.argv [osJoin3 h VENV_NAME
      (if h.system ≠ "Windows" then "bin" else "Scripts") "pip", "install",
      "pip-tools==" ++ PIP_TOOLS_VERSION], false, none⟩ <;>
    simp [ho, PyOut.world, msgBoxes, List.filter_append, Effect.isMsgBox]

/-- Requirement compilation shows no message box. -/
lemma msgBoxes_compile (h : Host) (o : Oracle) (w : World) :
    msgBoxes ((compile_requirements h o w).world).events = msgBoxes w.events := by
  simp only [compile_requirements, runProc]
  cases ho : o ⟨Cmd.argv [osJoin3 h VENV_NAME
      (if h.system ≠ "Windows" then "bin" else "Scripts") "pip-compile",
      REQUIREMENTS_FILE], true, none⟩ with
  | completed r =>
    by_cases hs : r.stderr = "" <;>
      simp [ho, hs, PyOut.world, msgBoxes, List.filter_append, Effect.isMsgBox, log_to_terminal]
  | raises e => simp [ho, PyOut.world]

/-- Requirement synchronisation shows no message box. -/
lemma msgBoxes_sync (h : Host) (o : Oracle) (w : World) :
    msgBoxes ((sync_requirements h o w).world).events = msgBoxes w.events := by
  simp only [sync_requirements, runProc]
  cases ho : o ⟨Cmd.argv [osJoin3 h VENV_NAME
      (if h.system ≠ "Windows" then "bin" else "Scripts") "pip-sync"], true, none⟩ with
  | completed r =>
    by_cases hs : r.stderr = "" <;>
      simp [ho, hs, PyOut.world, msgBoxes, List.filter_append, Effect.isMsgBox, log_to_terminal]
  | raises e => simp [ho, PyOut.world]

/-- Listing installed packages shows no message box (the surrounding
`on_status` action is what shows one). -/
lemma msgBoxes_get_installed (h : Host) (o : Oracle) (w : World) :
    msgBoxes ((get_installed_packages h o w).world).events = msgBoxes w.events := by
  simp only [get_installed_packages, runProc]
  cases ho : o ⟨Cmd.argv [osJoin3 h VENV_NAME
      (if h.system ≠ "Windows" then "bin" else "Scripts") "pip", "list"], true, none⟩ <;>
    simp [ho, PyOut.world, msgBoxes, List.filter_append, Effect.isMsgBox]

/-- Shell-command execution shows no message box. -/
lemma msgBoxes_shell (h : Host) (o : Oracle) (cmd : String) (w : World) :
    msgBoxes ((run_shell_command h o cmd w).world).events = msgBoxes w.events := by
  by_cases hb : pyStrip cmd = ""
  · simp [run_shell_command, hb, PyOut.world, log_to_terminal]
  · simp only [run_shell_command, hb, if_neg, runProc, log_to_terminal,
      Terminal.insertEnd, Terminal.seeEnd]
    cases hp : w.hostEnv.get? ("PATH") with
    | none => simp [hp, PyOut.world]
    | some oldPath =>
      cases ho : o ⟨Cmd.shell cmd, true, some (w.hostEnv.set ("PATH")
          (osJoin h VENV_NAME (if h.system = "Windows" then "Scripts" else "bin") ++
            h.pathsep ++ oldPath))⟩ with
      | completed r =>
        by_cases h1 : r.stdout = "" <;> by_cases h2 : r.stderr = "" <;>
          simp [hp, ho, h1, h2, PyOut.world, msgBoxes, List.filter_append,
            Effect.isMsgBox, log_to_terminal]
      | raises e => simp [hp, ho, PyOut.world]

/-- An optional log append touches no events. -/
lemma events_logIf (s : String) (w : World) : (logIfNonempty s w).events = w.events := by
  by_cases hs : s = "" <;> simp [logIfNonempty, hs, events_log]

/-- Listing installed packages never touches the terminal widget. -/
lemma get_installed_term (h : Host) (o : Oracle) (w : World) :
    ((get_installed_packages h o w).world).term = w.term := by
  simp only [get_installed_packages, runProc]
  cases ho : o ⟨Cmd.argv [osJoin3 h VENV_NAME
      (if h.system ≠ "Windows" then "bin" else "Scripts") "pip", "list"], true, none⟩ <;>
    simp [ho, PyOut.world]

/-- The whole environment-creation action shows no message box. -/
lemma msgBoxes_on_create_venv (h : Host) (o : Oracle) (w : World) :
    msgBoxes ((on_create_venv h o w).world).events = msgBoxes w.events := by
  simp only [on_create_venv]
  cases hq1 : install_os_dependencies h o (log_to_terminal ("Checking OS dependencies...") w) with
  | exn w2 e =>
    have h1 := msgBoxes_install_os h o (log_to_terminal ("Checking OS dependencies...") w)
    rw [hq1] at h1
    simpa [PyOut.world, events_log] using h1
  | ok w2 v =>
    have h1 := msgBoxes_install_os h o (log_to_terminal ("Checking OS dependencies...") w)
    rw [hq1] at h1
    simp only [PyOut.world, events_log] at h1
    simp only []
    cases hq2 : create_venv h o (log_to_terminal ("Creating virtual environment...") w2) with
    | exn w3 e =>
      have h2 := msgBoxes_create_venv h o (log_to_terminal ("Creating virtual environment...") w2)
      rw [hq2] at h2
      simp only [PyOut.world, events_log] at h2
      simpa [PyOut.world, h2] using h1
    | ok w3 s =>
      have h2 := msgBoxes_create_venv h o (log_to_terminal ("Creating virtual environment...") w2)
      rw [hq2] at h2
      simp only [PyOut.world, events_log] at h2
      simp only []
      cases hq3 : install_pip_tools h o
          (log_to_terminal ("Installing pip-tools...")
            (log_to_terminal ("Virtual environment created at " ++ s) w3)) with
      | exn w4 e =>
        have h3 := msgBoxes_install_pip_tools h o
          (log_to_terminal ("Installing pip-tools...")
            (log_to_terminal ("Virtual environment created at " ++ s) w3))
        rw [hq3] at h3
        simp only [PyOut.world, events_log] at h3
        simp [PyOut.world, h3, h2, h1]
      | ok w4 v4 =>
        have h3 := msgBoxes_install_pip_tools h o
          (log_to_terminal ("Installing pip-tools...")
            (log_to_terminal ("Virtual environment created at " ++ s) w3))
        rw [hq3] at h3
        simp only [PyOut.world, events_log] at h3
        simp [PyOut.world, events_log, msgBoxes_append_tab, h3, h2, h1]

/-- Shell-command execution never writes to the host process environment. -/
lemma hostEnv_shell (h : Host) (o : Oracle) (cmd : String) (w : World) :
    ((run_shell_command h o cmd w).world).hostEnv = w.hostEnv := by
  by_cases hb : pyStrip cmd = ""
  · simp [run_shell_command, hb, PyOut.world, log_to_terminal]
  · simp only [run_shell_command, hb, if_neg, runProc, log_to_terminal,
      Terminal.insertEnd, Terminal.seeEnd]
    cases hp : w.hostEnv.get? ("PATH") with
    | none => simp [hp, PyOut.world]
    | some oldPath =>
      cases ho : o ⟨Cmd.shell cmd, true, some (w.hostEnv.set ("PATH")
          (osJoin h VENV_NAME (if h.system = "Windows" then "Scripts" else "bin") ++
            h.pathsep ++ oldPath))⟩ with
      | completed r =>
        by_cases h1 : r.stdout = "" <;> by_cases h2 : r.stderr = "" <;>
          simp [hp, ho, h1, h2, PyOut.world, log_to_terminal]
      | raises e => simp [hp, ho, PyOut.world]

/-- C1: every operation that targets the isolated environment — installing
pip-tools, compiling requirements, syncing requirements, listing packages,
the returned venv activate path, and the shell-command `PATH` extension —
builds its executable path or `PATH` entry from the Environment Location
`VENV_NAME` joined with the platform binary subdirectory, which equals
`Scripts` when the host platform is Windows and `bin` otherwise. -/
theorem venv_paths_use_platform_bin_dir (h : Host) (w : World) (r : ProcResult)
    (cmd p : String) :
    (h.system = "Windows" → specBinDir h = "Scripts") ∧
    (h.system ≠ "Windows" → specBinDir h = "bin") ∧
    ((install_pip_tools h (constOracle r) w).world).events
      = w.events ++ [Effect.spawned (pipInstallReq h)] ∧
    ((compile_requirements h (constOracle r) w).world).events
      = w.events ++ [Effect.spawned (compileReq h)] ∧
    ((sync_requirements h (constOracle r) w).world).events
      = w.events ++ [Effect.spawned (syncReq h)] ∧
    ((get_installed_packages h (constOracle r) w).world).events
      = w.events ++ [Effect.spawned (pipListReq h)] ∧
    create_venv h (constOracle r) w =
      .ok (afterSpawn w (venvCreateReq h)) (osJoin3 h VENV_NAME (specBinDir h) "activate") ∧
    (pyStrip cmd ≠ "" → w.hostEnv.get? ("PATH") = some p →
      ((run_shell_command h (constOracle r) cmd w).world).events
        = w.events ++ [Effect.spawned (shellReq h w cmd p)]) := by
  refine ⟨fun hw => by simp [specBinDir, hw], fun hw => by simp [specBinDir, hw],
    ?_, ?_, ?_, ?_, create_venv_run h w r, ?_⟩
  · rw [install_pip_tools_run]
    simp [PyOut.world, afterSpawn]
  · rw [compile_run]
    simp [PyOut.world, events_logIf, events_log, afterSpawn]
  · rw [sync_run]
    simp [PyOut.world, events_logIf, events_log, afterSpawn]
  · rw [get_installed_packages_run]
    simp [PyOut.world, afterSpawn]
  · intro hc hp
    rw [shell_run h w r cmd p hc hp]
    simp [PyOut.world, events_logIf, events_log, afterSpawn]

/-- Closed instance of `venv_paths_use_platform_bin_dir`: both platform
choices and the shell `PATH` entry, at concrete inputs. -/
theorem venv_paths_use_platform_bin_dir_witness :
    specBinDir winHost = "Scripts" ∧ specBinDir linuxHost = "bin" ∧
    ((run_shell_command linuxHost (constOracle r0) ("ls") w0).world).events
      = w0.events ++ [Effect.spawned (shellReq linuxHost w0 ("ls") ("/usr/bin:/bin"))] :=
  ⟨(venv_paths_use_platform_bin_dir winHost w0 r0 ("ls") ("/usr/bin:/bin")).1 (by decide),
   (venv_paths_use_platform_bin_dir linuxHost w0 r0 ("ls") ("/usr/bin:/bin")).2.1 (by decide),
   (venv_paths_use_platform_bin_dir linuxHost w0 r0 ("ls") ("/usr/bin:/bin")).2.2.2.2.2.2.2
     (by decide) (by decide)⟩

/-- C2: for each output-capturing invocation — compiling, syncing, and the
shell command — the terminal buffer afterwards contains the captured stdout
and stderr, in that order, each followed by the line separator. -/
theorem captured_output_logged_in_order (h : Host) (w : World) (r : ProcResult)
    (cmd p : String) (hc : pyStrip cmd ≠ "") (hp : w.hostEnv.get? ("PATH") = some p) :
    logsInOrder ((compile_requirements h (constOracle r) w).world).term.buffer
      r.stdout r.stderr ∧
    logsInOrder ((sync_requirements h (constOracle r) w).world).term.buffer
      r.stdout r.stderr ∧
    logsInOrder ((run_shell_command h (constOracle r) cmd w).world).term.buffer
      r.stdout r.stderr := by
  refine ⟨?_, ?_, ?_⟩
  · apply logsInOrder_chunk (w.term.buffer.data)
    rw [compile_run]
    simp [PyOut.world, logIfNonempty_buffer_data, log_buffer_data, afterSpawn_term]
  · apply logsInOrder_chunk (w.term.buffer.data)
    rw [sync_run]
    simp [PyOut.world, logIfNonempty_buffer_data, log_buffer_data, afterSpawn_term]
  · apply logsInOrder_sepEnd (w.term.buffer.data ++ ("Executing in venv: " ++ cmd).data)
    rw [shell_run h w r cmd p hc hp]
    simp [PyOut.world, logIfNonempty_buffer_data, log_buffer_data, afterSpawn_term,
      String.data_append]

/-- Closed instance of `captured_output_logged_in_order` at concrete inputs. -/
theorem captured_output_logged_in_order_witness :
    pyStrip ("ls") ≠ "" ∧
    logsInOrder ((run_shell_command linuxHost (constOracle r0) ("ls") w0).world).term.buffer
      r0.stdout r0.stderr :=
  ⟨by decide,
   (captured_output_logged_in_order linuxHost w0 r0 ("ls") ("/usr/bin:/bin")
     (by decide) (by decide)).2.2⟩

/-- C3: a user command that is empty or all whitespace makes
`run_shell_command` append exactly the single log line
`No command entered.` and spawn no child process. -/
theorem blank_command_logs_single_line (h : Host) (oracle : Oracle) (cmd : String)
    (w : World) (hc : ∀ c ∈ cmd.data, isPySpace c) :
    run_shell_command h oracle cmd w =
      .ok { w with term := ⟨w.term.buffer ++ ("No command entered." ++ lineSep), true⟩ } () ∧
    ((run_shell_command h oracle cmd w).world).events = w.events := by
  have hs := pyStrip_all_space cmd hc
  constructor
  · simp [run_shell_command, hs, log_to_terminal, Terminal.insertEnd, Terminal.seeEnd]
  · simp [run_shell_command, hs, log_to_terminal, PyOut.world]

/-- Closed instance of `blank_command_logs_single_line` on the one-space
command. -/
theorem blank_command_logs_single_line_witness :
    (∀ c ∈ (" ").data, isPySpace c) ∧
    run_shell_command linuxHost oracle0 (" ") w0 =
      .ok { w0 with term := ⟨w0.term.buffer ++ ("No command entered." ++ lineSep), true⟩ } () :=
  ⟨by decide, (blank_command_logs_single_line linuxHost oracle0 (" ") w0 (by decide)).1⟩

/-- C4: on every host platform, `create_venv` returns the join of
`VENV_NAME`, the platform binary subdirectory (`Scripts` on Windows, `bin`
otherwise), and `activate`, and the returned path carries no file
extension (it contains no dot at all). -/
theorem create_venv_returns_activate_path (h : Host) (w : World) (r : ProcResult) :
    create_venv h (constOracle r) w =
      .ok (afterSpawn w (venvCreateReq h)) (osJoin3 h VENV_NAME (specBinDir h) "activate") ∧
    ('.' ∉ (osJoin3 h VENV_NAME (specBinDir h) "activate").data) := by
  refine ⟨create_venv_run h w r, ?_⟩
  by_cases hw : h.system = "Windows" <;>
    simp [osJoin3, osJoin, Host.sep, specBinDir, VENV_NAME, hw, String.data_append]

/-- C5 counterexample: when the requested executable is missing, the
argument-vector call in `compile_requirements` raises (Python's
`FileNotFoundError`), the exception propagates out of the operation, and
nothing at all is appended to the log — the failure does not surface as
text in the Log Sink. -/
theorem missing_executable_raises_uncaught :
    compile_requirements linuxHost (raisesOracle ("FileNotFoundError")) w0
      = .exn w0 ("FileNotFoundError") ∧
    ((compile_requirements linuxHost (raisesOracle ("FileNotFoundError")) w0).world).term.buffer
      = w0.term.buffer :=
  ⟨rfl, rfl⟩

/-- C5 amended: failures reported through the child's exit status or
captured streams (nonzero exit code, malformed shell command) surface only
as text appended to the Log Sink and raise nothing; but when the executable
of a direct argument-vector invocation is missing, `subprocess.run` raises,
the exception propagates out of the operation uncaught, and nothing is
appended to the log. -/
theorem failures_logged_or_raised (h : Host) (w : World) (r : ProcResult)
    (e cmd p : String) :
    compile_requirements h (constOracle r) w =
      .ok (logIfNonempty r.stderr (log_to_terminal r.stdout (afterSpawn w (compileReq h)))) () ∧
    (pyStrip cmd ≠ "" → w.hostEnv.get? ("PATH") = some p →
      run_shell_command h (constOracle r) cmd w =
        .ok (logIfNonempty r.stderr (logIfNonempty r.stdout
          (afterSpawn (log_to_terminal ("Executing in venv: " ++ cmd) w)
            (shellReq h w cmd p)))) ()) ∧
    compile_requirements h (raisesOracle e) w = .exn w e := by
  refine ⟨compile_run h w r, fun hc hp => shell_run h w r cmd p hc hp, ?_⟩
  simp [compile_requirements, runProc, raisesOracle]

/-- Closed instance of `failures_logged_or_raised`: a failing shell command
(`r0` carries nonzero-exit-style stderr) completes without exception. -/
theorem failures_logged_or_raised_witness :
    pyStrip ("false") ≠ "" ∧
    run_shell_command linuxHost (constOracle r0) ("false") w0 =
      .ok (logIfNonempty r0.stderr (logIfNonempty r0.stdout
        (afterSpawn (log_to_terminal ("Executing in venv: " ++ "false") w0)
          (shellReq linuxHost w0 ("false") ("/usr/bin:/bin"))))) () :=
  ⟨by decide,
   (failures_logged_or_raised linuxHost w0 r0 ("FileNotFoundError") ("false")
     ("/usr/bin:/bin")).2.1 (by decide) (by decide)⟩

/-- C6: a child process exiting with a nonzero code triggers no exit-code
check: the run of `compile_requirements` and `sync_requirements` equals the
run with exit code zero, yields no exception, and appends the stderr text
through `log_to_terminal`, the same path as the stdout text. -/
theorem nonzero_exit_code_ignored (h : Host) (w : World) (r : ProcResult)
    (hr : r.returncode ≠ 0) :
    compile_requirements h (constOracle r) w
      = compile_requirements h (constOracle ⟨r.stdout, r.stderr, 0⟩) w ∧
    compile_requirements h (constOracle r) w =
      .ok (logIfNonempty r.stderr (log_to_terminal r.stdout (afterSpawn w (compileReq h)))) () ∧
    sync_requirements h (constOracle r) w
      = sync_requirements h (constOracle ⟨r.stdout, r.stderr, 0⟩) w ∧
    sync_requirements h (constOracle r) w =
      .ok (logIfNonempty r.stderr (log_to_terminal r.stdout (afterSpawn w (syncReq h)))) () := by
  refine ⟨?_, compile_run h w r, ?_, sync_run h w r⟩
  · simp [compile_run]
  · simp [sync_run]

/-- Closed instance of `nonzero_exit_code_ignored` at exit code 1. -/
theorem nonzero_exit_code_ignored_witness :
    ((⟨"out", "err", 1⟩ : ProcResult).returncode ≠ 0) ∧
    compile_requirements linuxHost (constOracle ⟨"out", "err", 1⟩) w0
      = compile_requirements linuxHost (constOracle ⟨"out", "err", 0⟩) w0 :=
  ⟨by decide, (nonzero_exit_code_ignored linuxHost w0 ⟨"out", "err", 1⟩ (by decide)).1⟩

/-- C7: for a non-blank command, `run_shell_command` hands the child a
modified copy of the environment whose `PATH` is the venv binary directory,
then the platform path-list separator `os.pathsep`, then the previous
`PATH` value, in that order; every other variable is unchanged. -/
theorem shell_env_prepends_venv_bin (h : Host) (w : World) (r : ProcResult)
    (cmd p : String) (hc : pyStrip cmd ≠ "") (hp : w.hostEnv.get? ("PATH") = some p) :
    (∀ w2 v, run_shell_command h (constOracle r) cmd w = .ok w2 v →
      w2.events = w.events ++ [Effect.spawned (shellReq h w cmd p)]) ∧
    (shellReq h w cmd p).env = some (w.hostEnv.set ("PATH")
      (osJoin h VENV_NAME (specBinDir h) ++ h.pathsep ++ p)) ∧
    (w.hostEnv.set ("PATH") (osJoin h VENV_NAME (specBinDir h) ++ h.pathsep ++ p)).get? ("PATH")
      = some (osJoin h VENV_NAME (specBinDir h) ++ h.pathsep ++ p) ∧
    (∀ k, k ≠ "PATH" →
      (w.hostEnv.set ("PATH") (osJoin h VENV_NAME (specBinDir h) ++ h.pathsep ++ p)).get? k
        = w.hostEnv.get? k) := by
  refine ⟨?_, rfl, Environ.get?_set_self _ _ _, fun k hk => Environ.get?_set_ne _ _ _ _ hk⟩
  intro w2 v hrun
  rw [shell_run h w r cmd p hc hp] at hrun
  cases hrun
  simp [events_logIf, events_log, afterSpawn]

/-- Closed instance of `shell_env_prepends_venv_bin` at concrete inputs. -/
theorem shell_env_prepends_venv_bin_witness :
    pyStrip ("ls") ≠ "" ∧
    ((run_shell_command linuxHost (constOracle r0) ("ls") w0).world).events
      = w0.events ++ [Effect.spawned (shellReq linuxHost w0 ("ls") ("/usr/bin:/bin"))] ∧
    (shellReq linuxHost w0 ("ls") ("/usr/bin:/bin")).env = some (w0.hostEnv.set ("PATH")
      (osJoin linuxHost VENV_NAME (specBinDir linuxHost) ++ linuxHost.pathsep
        ++ ("/usr/bin:/bin"))) :=
  ⟨by decide,
   (shell_env_prepends_venv_bin linuxHost w0 r0 ("ls") ("/usr/bin:/bin")
     (by decide) (by decide)).1
     ((run_shell_command linuxHost (constOracle r0) ("ls") w0).world) () rfl,
   (shell_env_prepends_venv_bin linuxHost w0 r0 ("ls") ("/usr/bin:/bin")
     (by decide) (by decide)).2.1⟩

/-- C8: the log sink appends the given text plus exactly one trailing line
separator to the end of the buffer, leaves the prior contents and the rest
of the world unchanged, and moves the visible scroll position to the end. -/
theorem log_sink_appends_and_scrolls (text : String) (w : World) :
    (log_to_terminal text w).term.buffer = w.term.buffer ++ (text ++ lineSep) ∧
    (log_to_terminal text w).term.scrollAtEnd = true ∧
    (log_to_terminal text w).events = w.events ∧
    (log_to_terminal text w).hostEnv = w.hostEnv :=
  ⟨rfl, rfl, rfl, rfl⟩

/-- C9 counterexample: the Status action sends its feedback to a modal
message box, not to the Log Sink — at a concrete run, `on_status` records a
message-box effect and leaves the terminal buffer untouched, so the Log
Sink is not the sole feedback channel of every operation. -/
theorem status_feedback_via_message_box :
    on_status linuxHost oracle0 w0 =
      .ok { term := w0.term, events := [Effect.spawned (pipListReq linuxHost),
        Effect.msgBox ("Installed Packages") ("out")], hostEnv := w0.hostEnv } () ∧
    Effect.msgBox ("Installed Packages") ("out")
      ∈ ((on_status linuxHost oracle0 w0).world).events ∧
    ((on_status linuxHost oracle0 w0).world).term.buffer = w0.term.buffer := by
  refine ⟨?_, ?_, ?_⟩ <;> decide

/-- C9 amended: the Log Sink is the sole feedback surface for creating the
environment, compiling, syncing, and shell commands — none of them ever
shows a message box — while the Status action instead presents the package
list in a modal message box and appends nothing to the Log Buffer. -/
theorem log_sink_sole_feedback_except_status (h : Host) (oracle : Oracle)
    (cmd : String) (w : World) :
    msgBoxes ((on_create_venv h oracle w).world).events = msgBoxes w.events ∧
    msgBoxes ((on_compile h oracle w).world).events = msgBoxes w.events ∧
    msgBoxes ((on_sync h oracle w).world).events = msgBoxes w.events ∧
    msgBoxes ((run_shell_command h oracle cmd w).world).events = msgBoxes w.events ∧
    (∀ w2 pk, get_installed_packages h oracle w = .ok w2 pk →
      on_status h oracle w =
        .ok { w2 with events := w2.events ++ [Effect.msgBox ("Installed Packages") pk] } () ∧
      w2.term.buffer = w.term.buffer) := by
  refine ⟨msgBoxes_on_create_venv h oracle w, ?_, ?_, msgBoxes_shell h oracle cmd w, ?_⟩
  · have h1 := msgBoxes_compile h oracle (log_to_terminal ("Running pip-compile...") w)
    simpa [on_compile, events_log] using h1
  · have h1 := msgBoxes_sync h oracle (log_to_terminal ("Running pip-sync...") w)
    simpa [on_sync, events_log] using h1
  · intro w2 pk hq
    constructor
    · simp only [on_status]
      rw [hq]
    · have ht := get_installed_term h oracle w
      rw [hq] at ht
      simpa [PyOut.world] using congrArg Terminal.buffer ht

/-- Closed instance of `log_sink_sole_feedback_except_status`: the Status
branch at concrete inputs. -/
theorem log_sink_sole_feedback_except_status_witness :
    on_status linuxHost oracle0 w0 =
      .ok { (afterSpawn w0 (pipListReq linuxHost)) with events :=
        (afterSpawn w0 (pipListReq linuxHost)).events
          ++ [Effect.msgBox ("Installed Packages") r0.stdout] } () ∧
    (afterSpawn w0 (pipListReq linuxHost)).term.buffer = w0.term.buffer :=
  (log_sink_sole_feedback_except_status linuxHost oracle0 ("ls") w0).2.2.2.2
    (afterSpawn w0 (pipListReq linuxHost)) r0.stdout
    (get_installed_packages_run linuxHost w0 r0)

/-- C10: `run_shell_command` never changes the host process's own
environment — the `PATH` extension lives only in the copy handed to the
child — so a second invocation still sees the original host environment. -/
theorem host_environment_preserved (h : Host) (oracle : Oracle) (cmd cmd2 : String)
    (w : World) :
    ((run_shell_command h oracle cmd w).world).hostEnv = w.hostEnv ∧
    ((run_shell_command h oracle cmd2
        ((run_shell_command h oracle cmd w).world)).world).hostEnv = w.hostEnv := by
  refine ⟨hostEnv_shell h oracle cmd w, ?_⟩
  rw [hostEnv_shell, hostEnv_shell]
